import Mathlib

/-!
Shallow embedding of the `gov_props` Angular application (profile page,
home page) and its auxiliary Firestore enrichment script, with theorems
settling the specification claims about them.

Sources embedded:
* `src/src/app/main/profile-page/profile-page.ts` (class `ProfilePage`,
  both snapshots present in the repository agree on the embedded logic);
* `src/unnamed/part_001` (class `Homepage`, two snapshots: an early one and
  the current one with router navigation);
* `src/unnamed/part_002` (README of `proposition_sentiment_scraper.py`; the
  script itself is absent from the sources, so its write-back step is
  modelled from the spec).
-/

namespace GovProps

/-- JS `s.includes(sub)`: `sub` occurs as a contiguous substring of `s`. -/
def jsIncludes (s sub : String) : Bool :=
  decide (sub.data <:+: s.data)

/-- JS `s.toLowerCase()`, character by character (the strings this code
lowercases are ASCII status words and names). -/
def jsToLower (s : String) : String :=
  ⟨s.data.map Char.toLower⟩

/-- JS `s.trim()`: strip whitespace from both ends. -/
def jsTrim (s : String) : String :=
  ⟨((s.data.dropWhile Char.isWhitespace).reverse.dropWhile Char.isWhitespace).reverse⟩

/-- Parse a canonical nonnegative decimal string; `none` on anything
else. -/
def parseDecimal (s : String) : Option Nat :=
  if s.data ≠ [] ∧ s.data.all (fun c => c.isDigit) then
    some (s.data.foldl (fun n c => n * 10 + (c.toNat - 48)) 0)
  else none

/-- JS `Number(k)` restricted to the numeric-like keys the profile page
sorts by: a canonical nonnegative decimal string parses to its value; any
other string gets a default (the claims only quantify over keys where
`parseDecimal` succeeds, where this model agrees with JS `Number`). -/
def jsNumber (k : String) : Nat :=
  (parseDecimal k).getD 0

/-- A key is numeric-like when it parses as a nonnegative decimal number. -/
def numericLike (k : String) : Bool :=
  (parseDecimal k).isSome

/-! ## Profile page: data model and the `ngOnInit` reshaping step -/

/-- A politician document, as read from the `Politicians` collection:
a `Name` field and an optional `Propositions` map. The map is embedded as
its `Object.entries` list (key/value pairs); `none` stands for a missing,
null or otherwise falsy `Propositions` field. Values of the map are an
arbitrary type `α`. -/
structure Politician (α : Type) where
  Name : String
  Propositions : Option (List (String × α))
deriving DecidableEq

/-- The comparator `([a], [b]) => Number(a) - Number(b)` of
`ProfilePage.ngOnInit`, as the boolean "less or equal" relation the stable
sort orders by. -/
def keyLe {α : Type} (a b : String × α) : Bool :=
  jsNumber a.1 ≤ jsNumber b.1

/-- `Object.entries(propsMap).sort(([a], [b]) => Number(a) - Number(b))`:
a stable sort of the entries by the numeric value of the keys
(JS `Array.prototype.sort` is a stable sort). -/
def sortProps {α : Type} (es : List (String × α)) : List (String × α) :=
  es.mergeSort keyLe

/-- `.map(([_, value]) => value)` applied after the sort: the `propsList`
built from an entries list. -/
def propsListOfEntries {α : Type} (es : List (String × α)) : List α :=
  (sortProps es).map Prod.snd

/-- The politician object the profile page exposes to its template:
the document data together with the derived `propsList`. -/
structure PoliticianView (α : Type) where
  data : Politician α
  propsList : List α
deriving DecidableEq

/-- The second `map` stage of `ngOnInit` on a non-null document:
`const propsMap = data['Propositions'] || {}` followed by the
sort-and-project, returning `{ ...data, propsList }`. -/
def reshape {α : Type} (d : Politician α) : PoliticianView α :=
  { data := d, propsList := propsListOfEntries (d.Propositions.getD []) }

/-- The Firestore query `where('Name', '==', name)`: the snapshot is the
sublist of the store's documents whose `Name` equals the route parameter. -/
def queryByName {α : Type} (store : List (Politician α)) (name : String) :
    List (Politician α) :=
  store.filter (fun d => d.Name == name)

/-- The full `politician$` pipeline on a snapshot: `null` on an empty
snapshot, otherwise the first document's data reshaped
(`snapshot.empty ? null : snapshot.docs[0].data()` then the reshaping
`map` stage, whose `if (!data) return null` guard fires exactly on the
`null` from the first stage). -/
def politicianResult {α : Type} (docs : List (Politician α)) :
    Option (PoliticianView α) :=
  match docs with
  | [] => none
  | d :: _ => some (reshape d)

/-! ## Profile page: UI state (modal toggles, status class, navigation) -/

/-- The UI state the modal methods touch: the component's `selectedProp`
and the document body's `overflow` style. -/
structure ModalState (α : Type) where
  selectedProp : Option α
  bodyOverflow : String
deriving DecidableEq

/-- `ProfilePage.openModal(prop)`: select the proposition and set
`document.body.style.overflow = 'hidden'`. -/
def openModal {α : Type} (prop : α) (_st : ModalState α) : ModalState α :=
  { selectedProp := some prop, bodyOverflow := "hidden" }

/-- `ProfilePage.closeModal()`: clear the selection and set
`document.body.style.overflow = 'auto'`. -/
def closeModal {α : Type} (_st : ModalState α) : ModalState α :=
  { selectedProp := none, bodyOverflow := "auto" }

/-- `ProfilePage.getStatusClass(status)`. `none` stands for a JS
null/undefined status, on which `status?.toLowerCase() || ''` yields `''`. -/
def getStatusClass (status : Option String) : String :=
  let s := (status.map jsToLower).getD ""
  if jsIncludes s "success" then "status-success"
  else if jsIncludes s "compromised" then "status-compromised"
  else if jsIncludes s "failed" then "status-failed"
  else "status-default"

/-- The component state `ProfilePage.toPage` can read or write: the list
of valid politician names fetched in `ngOnInit` and the modal state. -/
structure ProfileState (α : Type) where
  validNames : List String
  modal : ModalState α
deriving DecidableEq

/-- The externally visible outcome of `ProfilePage.toPage`: the component
state afterwards, the route segments navigated to (if any), and whether a
console warning was emitted. -/
structure ToPageResult (α : Type) where
  state : ProfileState α
  navigatedTo : Option (List String)
  warned : Bool
deriving DecidableEq

/-- `ProfilePage.toPage(person)`: warn and return when `person` is not in
`validNames`, otherwise `router.navigate(['/profile', person])`. -/
def toPage {α : Type} (st : ProfileState α) (person : String) : ToPageResult α :=
  if !(st.validNames.contains person) then
    { state := st, navigatedTo := none, warned := true }
  else
    { state := st, navigatedTo := some (["/profile", person]), warned := false }

/-! ## Home page: autocomplete filter and navigation -/

/-- `Homepage._filter` of the early snapshot of the component
(`src/unnamed/part_001`, first class): keep the options whose lowercased
form contains the lowercased query. -/
def filterV1 (value : String) (options : List String) : List String :=
  let filterValue := jsToLower value
  options.filter (fun option => jsIncludes (jsToLower option) filterValue)

/-- `Homepage._filter` of the current snapshot of the component
(`src/unnamed/part_001`, second class): the truthiness guard `option &&`
additionally drops empty-string options. -/
def filterV2 (value : String) (options : List String) : List String :=
  let filterValue := jsToLower value
  options.filter (fun option => option != "" && jsIncludes (jsToLower option) filterValue)

/-- The spec's words for the home-page filter, for comparison: exactly
those options whose lowercased form contains the lowercased query as a
substring, in their original order. -/
def specFilter (value : String) (options : List String) : List String :=
  options.filter (fun option => jsIncludes (jsToLower option) (jsToLower value))

/-- The `topMatch` bookkeeping of `Homepage.ngOnInit`: the first element
of the filtered options, or `null` when the filter result is empty. -/
def updateTopMatch (options : List String) (value : String) : Option String :=
  (filterV2 value options).head?

/-- JS `a || b` on nullable strings: `a` unless it is null/undefined or
the empty string. -/
def jsOrString (a b : Option String) : Option String :=
  match a with
  | some s => if s == "" then b else some s
  | none => b

/-- `Homepage.goToPage(inputValue)`: navigate to
`['/profile', destinationName]` where
`destinationName = this.topMatch || inputValue`, guarded by
`destinationName && destinationName.trim() !== ''`; `none` means no
navigation happened. -/
def goToPage (topMatch inputValue : Option String) : Option (List String) :=
  match jsOrString topMatch inputValue with
  | some d => if d != "" && jsTrim d != "" then some (["/profile", d]) else none
  | none => none

/-- The claim's words for `goToPage`, for comparison: the top match is
navigated to whenever it exists; only the raw-input fallback is guarded by
the non-null, non-blank-after-trim condition. -/
def specGoToPage (topMatch inputValue : Option String) : Option (List String) :=
  match topMatch with
  | some t => some (["/profile", t])
  | none =>
    match inputValue with
    | some i => if jsTrim i != "" then some (["/profile", i]) else none
    | none => none

/-- The amended description of `goToPage`: a non-empty top match is
navigated to exactly when it is non-blank after trimming; an empty-string
or absent top match falls back to the raw input, navigated to exactly when
it is non-null, non-empty and non-blank after trimming. -/
def specGoToPageAmended (topMatch inputValue : Option String) : Option (List String) :=
  let fallback : Option (List String) :=
    match inputValue with
    | some i => if i != "" && jsTrim i != "" then some (["/profile", i]) else none
    | none => none
  match topMatch with
  | some t =>
    if t == "" then fallback
    else if jsTrim t != "" then some (["/profile", t]) else none
  | none => fallback

/-! ## Enrichment script (modelled from the spec) -/

/-- Modelled from the spec: the proposition record of
`proposition_sentiment_scraper.py`, whose code is absent from the sources
(only its README, `src/unnamed/part_002`, is present). Fields follow the
README's output structure; the two sentiment summaries are optional,
`none` when not yet written. -/
structure Proposition where
  Name : String
  Desc : String
  Verdict : String
  Verdict_desc : String
  sentiment_sentence_summary : Option String
  sentiment_paragraph_summary : Option String
deriving DecidableEq

/-- Modelled from the spec: "The script skips propositions that already
have sentiment data" — a proposition has sentiment data when a sentiment
summary field is present. -/
def hasSentiment (p : Proposition) : Bool :=
  p.sentiment_sentence_summary.isSome || p.sentiment_paragraph_summary.isSome

/-- Modelled from the spec: the enrichment step of
`proposition_sentiment_scraper.py`, absent from the sources. For a
proposition lacking summaries it writes the two generated summary strings
back (`gen` abstracts the scraping and the generative-AI call); a
proposition that already has sentiment data is skipped. -/
def enrich (gen : Proposition → String × String) (p : Proposition) : Proposition :=
  if hasSentiment p then p
  else
    { p with
      sentiment_sentence_summary := some (gen p).1
      sentiment_paragraph_summary := some (gen p).2 }

/-! ## Supporting lemmas -/

theorem keyLe_trans {α : Type} (a b c : String × α) :
    keyLe a b → keyLe b c → keyLe a c := by
  simp only [keyLe, decide_eq_true_eq]
  exact Nat.le_trans

theorem keyLe_total {α : Type} (a b : String × α) :
    keyLe a b || keyLe b a := by
  simp only [keyLe, Bool.or_eq_true, decide_eq_true_eq]
  exact Nat.le_total _ _

theorem sortProps_perm {α : Type} (es : List (String × α)) :
    List.Perm (sortProps es) es :=
  List.mergeSort_perm es keyLe

theorem sortProps_sorted {α : Type} (es : List (String × α)) :
    (sortProps es).Pairwise (fun a b => keyLe a b) :=
  List.sorted_mergeSort keyLe_trans keyLe_total es

/-- Concrete generator standing in for the scraping and generative-AI
call, used to evaluate the enrichment step on concrete propositions. -/
def genConst : Proposition → String × String :=
  fun _ => ("sentence summary", "paragraph summary")

/-- A concrete proposition that already has both sentiment summaries. -/
def propWithSummaries : Proposition :=
  { Name := "Prop A", Desc := "d", Verdict := "Success", Verdict_desc := "vd"
    sentiment_sentence_summary := some "old sentence"
    sentiment_paragraph_summary := some "old paragraph" }

/-- A concrete proposition lacking both sentiment summaries. -/
def propNoSummaries : Proposition :=
  { Name := "Prop B", Desc := "d", Verdict := "Failed", Verdict_desc := "vd"
    sentiment_sentence_summary := none
    sentiment_paragraph_summary := none }

/-! ## Claims -/

/-- C1: for a politician document whose Propositions map is keyed by
numeric-like strings, the reshaping step produces exactly the map's
values, ordered ascending by the numeric value of their keys (the stable
sort uses the comparator `Number(a) - Number(b)`). -/
theorem C1_propsList_sorted_values {α : Type} (es : List (String × α))
    (h : es.all (fun e => numericLike e.1) = true) :
    List.Perm (propsListOfEntries es) (es.map Prod.snd) ∧
    (sortProps es).Pairwise (fun a b => jsNumber a.1 ≤ jsNumber b.1) ∧
    propsListOfEntries es = (sortProps es).map Prod.snd := by
  refine ⟨(sortProps_perm es).map Prod.snd, ?_, rfl⟩
  exact (sortProps_sorted es).imp (fun hab => by simpa [keyLe] using hab)

unseal List.merge List.mergeSort in
/-- Witness for C1 at a concrete entries list. -/
theorem C1_witness :
    ([("2", (20 : Nat)), ("10", 100), ("1", 10)].all
      (fun e => numericLike e.1) = true) ∧
    propsListOfEntries [("2", (20 : Nat)), ("10", 100), ("1", 10)] = [10, 20, 100] ∧
    List.Perm (propsListOfEntries [("2", (20 : Nat)), ("10", 100), ("1", 10)])
      ([("2", (20 : Nat)), ("10", 100), ("1", 10)].map Prod.snd) := by
  refine ⟨by decide, by decide, ?_⟩
  exact (C1_propsList_sorted_values [("2", (20 : Nat)), ("10", 100), ("1", 10)]
    (by decide)).1

/-- C10: on a document whose Propositions field is missing, null or
otherwise falsy, the reshaping step is total and yields an empty
propsList. -/
theorem C10_reshape_total_empty {α : Type} (d : Politician α)
    (h : d.Propositions = none) :
    (reshape d).propsList = [] := by
  simp [reshape, propsListOfEntries, sortProps, h, List.mergeSort_nil]

/-- Witness for C10 at a concrete document with no Propositions field. -/
theorem C10_witness :
    (Politician.Propositions { Name := "Alice", Propositions := none } =
      (none : Option (List (String × Nat)))) ∧
    (reshape { Name := "Alice", Propositions := (none : Option (List (String × Nat))) }).propsList = [] :=
  ⟨rfl, C10_reshape_total_empty { Name := "Alice", Propositions := none } rfl⟩

/-- C4: the profile page's result is null exactly when the name query's
snapshot is empty; on a non-empty snapshot it is the first matching
document's data (with the derived propsList attached). -/
theorem C4_null_iff_empty {α : Type} (store : List (Politician α)) (name : String) :
    (politicianResult (queryByName store name) = none ↔
      queryByName store name = []) ∧
    (∀ d rest, queryByName store name = d :: rest →
      politicianResult (queryByName store name) = some (reshape d) ∧
      (reshape d).data = d) := by
  constructor
  · cases h : queryByName store name <;> simp [politicianResult, h]
  · intro d rest h
    rw [h]
    exact ⟨rfl, rfl⟩

/-- Witness for C4 at a concrete one-document store. -/
theorem C4_witness :
    (queryByName [{ Name := "Alice", Propositions := (none : Option (List (String × Nat))) }] "Alice" =
      [{ Name := "Alice", Propositions := none }]) ∧
    politicianResult (queryByName
        [{ Name := "Alice", Propositions := (none : Option (List (String × Nat))) }] "Alice") =
      some (reshape { Name := "Alice", Propositions := none }) := by
  refine ⟨by decide, ?_⟩
  exact ((C4_null_iff_empty
    [{ Name := "Alice", Propositions := (none : Option (List (String × Nat))) }] "Alice").2
    { Name := "Alice", Propositions := none } [] (by decide)).1

/-- C6: getStatusClass matches on the lowercased status, testing the
substrings success, compromised, failed in that fixed order, returning the
class of the first match and status-default when none matches, including
for a null/undefined status. -/
theorem C6_getStatusClass_order (status : Option String) :
    getStatusClass (none : Option String) = "status-default" ∧
    (jsIncludes ((status.map jsToLower).getD "") "success" = true →
      getStatusClass status = "status-success") ∧
    (jsIncludes ((status.map jsToLower).getD "") "success" = false →
      jsIncludes ((status.map jsToLower).getD "") "compromised" = true →
      getStatusClass status = "status-compromised") ∧
    (jsIncludes ((status.map jsToLower).getD "") "success" = false →
      jsIncludes ((status.map jsToLower).getD "") "compromised" = false →
      jsIncludes ((status.map jsToLower).getD "") "failed" = true →
      getStatusClass status = "status-failed") ∧
    (jsIncludes ((status.map jsToLower).getD "") "success" = false →
      jsIncludes ((status.map jsToLower).getD "") "compromised" = false →
      jsIncludes ((status.map jsToLower).getD "") "failed" = false →
      getStatusClass status = "status-default") := by
  refine ⟨by decide, ?_, ?_, ?_, ?_⟩ <;>
    · intros
      simp only [getStatusClass]
      simp [*]

/-- Witness for C6 at a concrete status string containing failed. -/
theorem C6_witness : getStatusClass (some "Mission Failed") = "status-failed" :=
  (C6_getStatusClass_order (some "Mission Failed")).2.2.2.1
    (by decide) (by decide) (by decide)

/-- C7: openModal sets the selected proposition and hides body overflow;
a subsequent closeModal clears the selection and restores auto overflow;
closeModal is idempotent and its result is independent of the starting
state. -/
theorem C7_modal_round_trip {α : Type} (prop : α) (st st' : ModalState α) :
    openModal prop st = { selectedProp := some prop, bodyOverflow := "hidden" } ∧
    closeModal (openModal prop st) = { selectedProp := none, bodyOverflow := "auto" } ∧
    (closeModal st).selectedProp = none ∧
    (closeModal st).bodyOverflow = "auto" ∧
    closeModal (closeModal st) = closeModal st ∧
    closeModal st = closeModal st' :=
  ⟨rfl, rfl, rfl, rfl, rfl, rfl⟩

/-- C8: toPage navigates to the profile route only for a person contained
in the fetched list of valid names; otherwise it warns and performs no
navigation; in both cases the component state is unchanged. -/
theorem C8_toPage_guard {α : Type} (st : ProfileState α) (person : String) :
    (st.validNames.contains person = true →
      toPage st person =
        { state := st, navigatedTo := some (["/profile", person]), warned := false }) ∧
    (st.validNames.contains person = false →
      toPage st person = { state := st, navigatedTo := none, warned := true }) ∧
    (toPage st person).state = st := by
  refine ⟨fun h => by unfold toPage; rw [h]; rfl,
    fun h => by unfold toPage; rw [h]; rfl, ?_⟩
  unfold toPage
  split <;> rfl

/-- Witness for C8 at a concrete state and an unknown person. -/
theorem C8_witness :
    (["Alice"].contains "Bob" = false) ∧
    toPage (α := Nat)
        { validNames := ["Alice"], modal := { selectedProp := none, bodyOverflow := "auto" } }
        "Bob" =
      { state :=
          { validNames := ["Alice"], modal := { selectedProp := none, bodyOverflow := "auto" } }
        navigatedTo := none, warned := true } :=
  ⟨by decide,
    (C8_toPage_guard
      { validNames := ["Alice"], modal := { selectedProp := none, bodyOverflow := "auto" } }
      "Bob").2.1 (by decide)⟩

/-- C2 counterexample: the current filter's truthiness guard drops an
empty-string option even though its lowercased form contains the
lowercased query, so the filter does not return exactly the
case-insensitive substring matches. -/
theorem C2_counterexample :
    filterV2 "" [""] = [] ∧
    specFilter "" [""] = [""] ∧
    filterV2 "" [""] ≠ specFilter "" [""] := by
  decide

/-- C2 amended: the current filter returns exactly those non-empty
options whose lowercased form contains the lowercased query as a
substring, preserving their original order; the earlier filter snapshot
returns exactly all such options, empty ones included. -/
theorem C2_filter_matches (value : String) (options : List String) :
    filterV2 value options =
      specFilter value (options.filter (fun option => option != "")) ∧
    filterV1 value options = specFilter value options := by
  refine ⟨?_, rfl⟩
  simp only [filterV2, specFilter, List.filter_filter]
  exact List.filter_congr (fun o _ => Bool.and_comm _ _)

/-- C9 counterexample: with a whitespace-only politician name as the top
autocomplete match, goToPage performs no navigation, while the claim says
the top match is navigated to whenever one exists. -/
theorem C9_counterexample :
    updateTopMatch [" "] "" = some " " ∧
    goToPage (some " ") (some "") = none ∧
    specGoToPage (some " ") (some "") = some (["/profile", " "]) ∧
    goToPage (some " ") (some "") ≠ specGoToPage (some " ") (some "") := by
  decide

/-- C9 amended: goToPage navigates to the top match exactly when it is a
non-empty string that is non-blank after trimming; an absent or
empty-string top match falls back to the raw input, navigated to exactly
when it is non-null, non-empty and non-blank after trimming; otherwise no
navigation happens. -/
theorem C9_goToPage_destination (topMatch inputValue : Option String) :
    goToPage topMatch inputValue = specGoToPageAmended topMatch inputValue := by
  cases topMatch with
  | none =>
    cases inputValue with
    | none => rfl
    | some i => rfl
  | some t =>
    by_cases ht : t == ""
    · cases inputValue with
      | none => simp [goToPage, jsOrString, specGoToPageAmended, ht]
      | some i => simp [goToPage, jsOrString, specGoToPageAmended, ht]
    · have ht' : (t != "") = true := by simp_all
      simp [goToPage, jsOrString, specGoToPageAmended, ht, ht']

/-- A proposition that already has sentiment data is skipped unchanged. -/
theorem enrich_of_hasSentiment (gen : Proposition → String × String)
    (p : Proposition) (h : hasSentiment p = true) : enrich gen p = p := by
  simp [enrich, h]

/-- After one enrichment pass a proposition always has sentiment data. -/
theorem hasSentiment_enrich (gen : Proposition → String × String)
    (p : Proposition) : hasSentiment (enrich gen p) = true := by
  unfold enrich
  split
  · assumption
  · simp [hasSentiment]

/-- C3: the enrichment step skips a proposition that already has
sentiment summary fields, so existing summaries are never overwritten,
and running the enrichment twice (even with a different generator) leaves
the same state as running it once. -/
theorem C3_enrich_idempotent (gen gen' : Proposition → String × String)
    (p : Proposition) :
    (hasSentiment p = true → enrich gen p = p) ∧
    enrich gen' (enrich gen p) = enrich gen p := by
  refine ⟨enrich_of_hasSentiment gen p, ?_⟩
  exact enrich_of_hasSentiment gen' (enrich gen p) (hasSentiment_enrich gen p)

/-- Witness for C3 at a concrete already-enriched proposition. -/
theorem C3_witness :
    hasSentiment propWithSummaries = true ∧
    enrich genConst propWithSummaries = propWithSummaries ∧
    enrich genConst (enrich genConst propNoSummaries) =
      enrich genConst propNoSummaries := by
  refine ⟨by decide, (C3_enrich_idempotent genConst genConst propWithSummaries).1 (by decide), by decide⟩

/-- C5: on a proposition lacking summaries, the enrichment writes exactly
the two sentiment summary string fields and leaves Name, Desc, Verdict
and Verdict_desc unchanged. -/
theorem C5_enrich_frame (gen : Proposition → String × String) (p : Proposition)
    (h : hasSentiment p = false) :
    (enrich gen p).Name = p.Name ∧
    (enrich gen p).Desc = p.Desc ∧
    (enrich gen p).Verdict = p.Verdict ∧
    (enrich gen p).Verdict_desc = p.Verdict_desc ∧
    (enrich gen p).sentiment_sentence_summary = some (gen p).1 ∧
    (enrich gen p).sentiment_paragraph_summary = some (gen p).2 := by
  simp [enrich, h]

/-- Witness for C5 at a concrete proposition lacking summaries. -/
theorem C5_witness :
    hasSentiment propNoSummaries = false ∧
    (enrich genConst propNoSummaries).Name = propNoSummaries.Name ∧
    (enrich genConst propNoSummaries).sentiment_sentence_summary =
      some (genConst propNoSummaries).1 :=
  ⟨by decide,
    (C5_enrich_frame genConst propNoSummaries (by decide)).1,
    (C5_enrich_frame genConst propNoSummaries (by decide)).2.2.2.2.1⟩

end GovProps
